import Mathlib

/-!
# Verification of the randomized GSVD core of `graphembed`

Shallow embedding of the GSVD engine of the repository:

* `src/atp/gsvd.rs` — the dense LAPACK `ggsvd3` wrapper: `GSvd::new`,
  `GSvd::do_gsvd`, `GSvdResult::init_from_lapack`, `check_orthogonality`,
  `check_uv_orthogonal`.
* `src/atp/randgsvd.rs` — the randomized engine: `GSvdApprox::new`,
  `GSvdApprox::do_approx_gsvd` (and its own, unimplemented,
  `GSvdResult::init_from_lapack`).

Modelling conventions:

* Scalars (`f32`/`f64` behind the `F : Float + Lapack + Scalar` generic) are
  modelled as `ℚ`; the claims under study are about control flow, slicing,
  index ranges and comparисons against the literal tolerance `1e-5`, all of
  which are faithfully expressed over `ℚ` (`1e-5` is the exact rational
  `1/100000`).
* `ndarray::Array2` is modelled as `MatQ`: explicit row/column counts plus a
  row-major list of rows, mirroring ndarray's carried dimensions.
* A Rust `panic!` / failed `assert!` is modelled by `Option.none` (for the
  decoder) or by the `GsvdOutcome.fatal` constructor (for the solver
  entry points); `anyhow::Error` returns are modelled by `GsvdOutcome.err`
  with a structured error mirroring the message produced.
* The external LAPACK primitive (`sggsvd3`/`dggsvd3`) is an oracle: its
  outputs (`info` return code, rank partition `k`,`l`, and the data written
  into the `u`/`v` buffers) are parameters of the solver models.  What the
  wrappers do with those outputs is taken from the source.
* In `GSvd::do_gsvd` the `alpha`/`beta` buffers are created with
  `Vec::with_capacity(a_nbcol)`, whose length is 0; the views rebuilt with
  `from_shape_ptr(alpha_f32.len(), ..)` therefore have length 0, and the
  model passes empty lists to the decoder on the `ires == 0` path.
-/

/-- The literal tolerance `1.0E-5` used by the checks in `gsvd.rs`. -/
def epsil : ℚ := 1/100000

/-- Model of `ndarray::Array2<F>` (and of the `U`/`V` factor buffers):
explicit dimensions plus row-major data, as ndarray carries them. -/
structure MatQ where
  nrows : Nat
  ncols : Nat
  data : List (List ℚ)
deriving DecidableEq, Repr

/-- Model of `GSvdResult<F>` from `src/atp/gsvd.rs` (fields `v1`, `v2`,
`s1`, `s2`, `_commonx`). -/
structure GSvdResultQ where
  v1 : Option MatQ
  v2 : Option MatQ
  s1 : Option (List ℚ)
  s2 : Option (List ℚ)
  commonx : Option MatQ
deriving DecidableEq, Repr

/-- `GSvdResult::new()` : all fields `None`. -/
def GSvdResult_new : GSvdResultQ := ⟨none, none, none, none, none⟩

/-- The slice `xs[a..b]` of `ndarray` (elements at indices `a ≤ i < b`),
for already-validated bounds: `take b` then `drop a`. -/
def sliceI (xs : List ℚ) (a b : Int) : List ℚ :=
  (xs.take b.toNat).drop a.toNat

/-- The cosine/sine identity loop of `init_from_lapack` (gsvd.rs:147-152):
for every zipped pair `(c, s)` of the decoded slices, the residual
`|1 - (c*c + s*s)|` must be `< 1e-5`; any violation is a fatal `assert!`. -/
def identOk (s1v s2v : List ℚ) : Bool :=
  ((s1v.zip s2v).map (fun x => x.1 * x.1 + x.2 * x.2)).all
    (fun q => decide (|1 - q| < epsil))

/-- The sort-check loop of `init_from_lapack` (gsvd.rs:166-171):
`for i in k+1..s`, panic when `alpha[i] > alpha[i-1]`.  Passing means
`alpha` is non-increasing on the index range `[k, s)`. -/
def sortOk (alpha : List ℚ) (k s : Nat) : Bool :=
  (List.range s).all
    (fun i => if k + 1 ≤ i then decide (alpha.getD i 0 ≤ alpha.getD (i-1) 0) else true)

/-- Tail of `GSvdResult::init_from_lapack` after the branch on `m-k-l`
(gsvd.rs:146-173): run the identity check on the decoded slices, store
them, run the sort check on `alpha` over `[k, min(m,k+l))`, and return the
populated result.  Any failed assertion is `none`. -/
def finishDecode (m k l : Int) (alpha s1v s2v : List ℚ) (u v : MatQ) :
    Option GSvdResultQ :=
  if identOk s1v s2v ∧ sortOk alpha k.toNat (min m (k+l)).toNat then
    some ⟨some u, some v, some s1v, some s2v, none⟩
  else none

/-- `GSvdResult::init_from_lapack` from `src/atp/gsvd.rs` (lines 103-173).
Arguments mirror the Rust signature (`m n p : i64`, factor matrices `u v`,
rank partition `k l : i64`, coefficient vectors `alpha beta`; the unused
`_permuta` is omitted).  `none` models a panic:
* the entry assertions `m ≥ 0`, `l ≥ 0`, `k ≥ 0`;
* branch `m-k-l ≥ 0`: `assert!(l > 0)` then slices `alpha[k..k+l]`,
  `beta[k..k+l]` (an out-of-bounds `ndarray` slice panics);
* branch `m-k-l < 0`: `assert!(m >= k)` then slices `alpha[k..m]`,
  `beta[k..m]`;
* then the identity check and the sort check of `finishDecode`. -/
def init_from_lapack (m _n _p : Int) (u v : MatQ) (k l : Int)
    (alpha beta : List ℚ) : Option GSvdResultQ :=
  if 0 ≤ m ∧ 0 ≤ l ∧ 0 ≤ k then
    if 0 ≤ m - k - l then
      if 0 < l ∧ (k+l).toNat ≤ alpha.length ∧ (k+l).toNat ≤ beta.length then
        finishDecode m k l alpha (sliceI alpha k (k+l)) (sliceI beta k (k+l)) u v
      else none
    else
      if k ≤ m ∧ m.toNat ≤ alpha.length ∧ m.toNat ≤ beta.length then
        finishDecode m k l alpha (sliceI alpha k m) (sliceI beta k m) u v
      else none
  else none

/-- Dot product of two rows, `(zipWith (*) xs ys).sum`; models the scalar
products appearing in `u.dot(&u.t())`. -/
def dotQ (xs ys : List ℚ) : ℚ :=
  (List.zipWith (fun a b => a * b) xs ys).sum

/-- The row-major data of `u.dot(&u.t())` (gsvd.rs:232): entry `(i,j)` is the
dot product of rows `i` and `j` of `u`. -/
def gramData (d : List (List ℚ)) : List (List ℚ) :=
  d.map (fun ri => d.map (fun rj => dotQ ri rj))

/-- `check_orthogonality` from `src/atp/gsvd.rs` (lines 227-252): computes
`id = u·uᵗ`, then for each `i` below `id.dim().0` requires
`|1 - id[i,i]| ≤ 1e-5` (the code errors when `> epsil`) and, for each
`j < i`, `|id[i,j]| ≤ 1e-5`.  `true` models `Ok(())`, `false` models
`Err(())`. -/
def check_orthogonality (u : MatQ) : Bool :=
  (List.range u.nrows).all (fun i =>
    decide (|1 - ((gramData u.data).getD i []).getD i 0| ≤ epsil) &&
    (List.range i).all (fun j =>
      decide (|((gramData u.data).getD i []).getD j 0| ≤ epsil)))

/-- `GSvdResult::check_uv_orthogonal` from `src/atp/gsvd.rs` (lines 189-210),
a `#[allow(unused)]` test utility: check `v1` if present (early-return on
failure), then `v2` if present. -/
def check_uv_orthogonal (r : GSvdResultQ) : Bool :=
  (match r.v1 with
   | some u => check_orthogonality u
   | none => true) &&
  (match r.v2 with
   | some v => check_orthogonality v
   | none => true)

/-- Modelled from the spec: "U (m×m) satisfies UᵗU ≈ I ... within tolerance
1e-5 (diagonal entries within 1e-5 of 1, off-diagonal entries within 1e-5
of 0)" — the elementwise orthogonality property, stated on the Gram entries
(dot products of rows) that the source's `u.dot(&u.t())` computes, for the
index pairs the source inspects (the diagonal and the below-diagonal
entries; the Gram matrix is symmetric). -/
def orthogonalWithinTol (u : MatQ) : Prop :=
  ∀ i < u.nrows,
    |1 - dotQ (u.data.getD i []) (u.data.getD i [])| ≤ epsil ∧
    ∀ j < i, |dotQ (u.data.getD i []) (u.data.getD j [])| ≤ epsil

/-- The typed errors surfaced by the solvers, mirroring the `anyhow!`
messages of the source:
* `notConverged` — "lapack ... failed to converge" (`ires == 1`);
* `invalidArgument i` — "argument i had an illegal value" (`ires < 0`,
  with `i = -ires`);
* `rangeApproxFailed w` — "approximation of matrix w failed" (`w ∈ {1,2}`,
  randgsvd.rs:171/177);
* `notImplemented` — "not yet implemented" (randgsvd.rs:321). -/
inductive GsvdErr where
  | notConverged : GsvdErr
  | invalidArgument : Int → GsvdErr
  | rangeApproxFailed : Nat → GsvdErr
  | notImplemented : GsvdErr
deriving DecidableEq

/-- Outcome of a solver call: `fatal` models a Rust `panic!`/failed
`assert!`, `err` models returning `Err(..)`, `ok` models `Ok(..)`. -/
inductive GsvdOutcome where
  | fatal : GsvdOutcome
  | err : GsvdErr → GsvdOutcome
  | ok : GSvdResultQ → GsvdOutcome
deriving DecidableEq

/-- Oracle for the external LAPACK `(s|d)ggsvd3` primitive: the status code
`ires` (`info`), the rank-partition output `k`, `l`, and the data the
primitive wrote into the `u` (m×m) and `v` (p×p) buffers.  The wrappers'
treatment of these outputs is what is modelled from the source. -/
structure LapackOracle where
  ires : Int
  k : Int
  l : Int
  uData : List (List ℚ)
  vData : List (List ℚ)
deriving DecidableEq

/-- `GSvd::new` from `src/atp/gsvd.rs` (lines 263-271): panics (`none`)
when the two matrices do not have the same number of columns, otherwise
constructs the problem. -/
def GSvd_new (a b : MatQ) : Option (MatQ × MatQ) :=
  if a.ncols ≠ b.ncols then none else some (a, b)

/-- `GSvd::do_gsvd` from `src/atp/gsvd.rs` (lines 288-410).
* `assert_eq!(a_nbcol, self.b.dim().1)` (line 305): `fatal` on mismatch.
* The `u`/`v` buffers are allocated as `(a_nbrow, a_nbrow)` and
  `(b_nbrow, b_nbrow)` zero matrices and overwritten by the primitive
  (oracle data); `alpha`/`beta` are `Vec::with_capacity(a_nbcol)`, whose
  length is 0, so the views rebuilt via `from_shape_ptr(alpha_f32.len(),..)`
  are empty: the decoder receives empty `alpha`, `beta`.
* `ires == 0`: decode via `init_from_lapack` then fall through to
  `Ok(gsvdres)`;
* `ires == 1`: `Err("lapack ... failed to converge")`;
* `ires < 0`: `Err("argument -ires had an illegal value")`;
* any other `ires` (≥ 2): no branch matches, falls through to
  `Ok(gsvdres)` with the untouched `GSvdResult::new()` value.
The `f32` and `f64` instantiations have identical control flow; the
final `else` branch (unsupported scalar type) is outside the two
supported precisions and not modelled. -/
def do_gsvd (a b : MatQ) (lap : LapackOracle) : GsvdOutcome :=
  if a.ncols ≠ b.ncols then .fatal
  else if lap.ires = 0 then
    match init_from_lapack a.nrows a.ncols b.nrows
        ⟨a.nrows, a.nrows, lap.uData⟩ ⟨b.nrows, b.nrows, lap.vData⟩
        lap.k lap.l [] [] with
    | none => .fatal
    | some r => .ok r
  else if lap.ires = 1 then .err .notConverged
  else if lap.ires < 0 then .err (.invalidArgument (-lap.ires))
  else .ok GSvdResult_new

/-- `GSvdApprox::new` from `src/atp/randgsvd.rs` (lines 145-149): stores
the two matrices with NO dimension check (the source carries a
`TODO check for dimensions constraints` comment). -/
def GSvdApprox_new (mat1 mat2 : MatQ) : Option (MatQ × MatQ) :=
  some (mat1, mat2)

/-- `approx.t().dot(mat)` — the reduced matrix `t(Q) * M` of
`do_approx_gsvd` (randgsvd.rs:187-200): a `(q.ncols × m.ncols)` matrix
whose `(i,j)` entry is the dot product of column `i` of `q` with column
`j` of `m`.  (The CSR variant `small_transpose_dense_mult_csr` computes
the same product for the sparse representation.) -/
def matTDot (q m : MatQ) : MatQ :=
  ⟨q.ncols, m.ncols,
   (List.range q.ncols).map (fun i =>
     (List.range m.ncols).map (fun j =>
       dotQ (q.data.map (fun row => row.getD i 0))
            (m.data.map (fun row => row.getD j 0))))⟩

/-- `GSvdApprox::do_approx_gsvd` from `src/atp/randgsvd.rs` (lines
165-322).  The two range-approximator results (external collaborator)
and the LAPACK primitive are oracles.  Result: outcome paired with a
flag recording whether the dense LAPACK primitive was invoked.
* `approx1_res.is_none()`: `Err("approximation of matrix 1 failed")`,
  primitive not invoked; same for matrix 2;
* reduced matrices `a = t(q1)·mat1`, `b = t(q2)·mat2`, then
  `assert_eq!(a_nbcol, b.dim().1)` — `fatal` (before the primitive) on
  mismatch;
* `ires == 0`: this file's `GSvdResult::init_from_lapack`
  (randgsvd.rs:135-137) is `panic!("not yet implemented")` — `fatal`;
* `ires == 1`: `Err("lapack failed to converge")`;
* `ires < 0`: `Err("argument -ires had an illegal value")`;
* any other `ires`: falls to the function's final statement
  `Err(anyhow!("not yet implemented"))` (line 321). -/
def do_approx_gsvd (mat1 mat2 : MatQ) (approx1 approx2 : Option MatQ)
    (lap : LapackOracle) : GsvdOutcome × Bool :=
  match approx1 with
  | none => (.err (.rangeApproxFailed 1), false)
  | some q1 =>
    match approx2 with
    | none => (.err (.rangeApproxFailed 2), false)
    | some q2 =>
      let a := matTDot q1 mat1
      let b := matTDot q2 mat2
      if a.ncols ≠ b.ncols then (.fatal, false)
      else if lap.ires = 0 then (.fatal, true)
      else if lap.ires = 1 then (.err .notConverged, true)
      else if lap.ires < 0 then (.err (.invalidArgument (-lap.ires)), true)
      else (.err .notImplemented, true)

/-- The five leading-dimension arguments passed to `(s|d)ggsvd3`. -/
structure LdParams where
  lda : Int
  ldb : Int
  ldu : Int
  ldv : Int
  ldq : Int
deriving DecidableEq

/-- The leading dimensions computed by `GSvd::do_gsvd`
(`src/atp/gsvd.rs` lines 308-319): `lda = a_nbcol`, `ldb = b_dim.1`,
`ldu = a_nbrow`, `ldv = b_dim.0`, `ldq = a_nbcol`. -/
def gsvd_ld_params (a_nbrow a_nbcol b_nbrow b_nbcol : Nat) : LdParams :=
  ⟨a_nbcol, b_nbcol, a_nbrow, b_nbrow, a_nbcol⟩

/-- The leading dimensions computed by `GSvdApprox::do_approx_gsvd`
(`src/atp/randgsvd.rs` lines 219-231): `lda = a_nbcol`, `ldb = b_dim.0`,
`ldu = a_nbrow`, `ldv = a_nbrow`, `ldq = 0`. -/
def randgsvd_ld_params (a_nbrow a_nbcol b_nbrow _b_nbcol : Nat) : LdParams :=
  ⟨a_nbcol, b_nbrow, a_nbrow, a_nbrow, 0⟩

/-- Concrete 2×2 identity factor used by the witnesses. -/
def U0 : MatQ := ⟨2, 2, [[1,0],[0,1]]⟩

/-- Concrete 1×1 factor used by the witnesses. -/
def V0 : MatQ := ⟨1, 1, [[1]]⟩

/-- A non-orthogonal 1×1 factor (`u·uᵗ = [[4]]`). -/
def Ubad : MatQ := ⟨1, 1, [[2]]⟩

/-- The decoded result of the witnesses' raw output
`(m,n,p,k,l) = (2,2,1,0,2)`, `alpha = [1,1]`, `beta = [0,0]`. -/
def R0 : GSvdResultQ := ⟨some U0, some V0, some [1,1], some [0,0], none⟩

/-- Concrete 1×2 second matrix (same column count as `U0`). -/
def B1 : MatQ := ⟨1, 2, [[1,0]]⟩

/-- Concrete 1×3 second matrix (column count differing from `U0`). -/
def B3 : MatQ := ⟨1, 3, [[1,2,3]]⟩

section HelperLemmas

/-- The identity-check loop passes exactly when every zipped pair of the
decoded slices satisfies the cosine/sine identity within `1e-5`. -/
lemma identOk_spec (s1v s2v : List ℚ) :
    identOk s1v s2v = true ↔
      ∀ x ∈ s1v.zip s2v, |1 - (x.1 * x.1 + x.2 * x.2)| < epsil := by
  unfold identOk
  rw [List.all_eq_true]
  constructor
  · intro H x hx
    exact of_decide_eq_true (H _ (List.mem_map_of_mem _ hx))
  · intro H q hq
    obtain ⟨x, hx, rfl⟩ := List.mem_map.mp hq
    exact decide_eq_true (H x hx)

/-- The sort-check loop passes exactly when `alpha` is non-increasing on
the index range `(k, s)`. -/
lemma sortOk_spec (alpha : List ℚ) (k s : Nat) :
    sortOk alpha k s = true ↔
      ∀ i, k + 1 ≤ i → i < s → alpha.getD i 0 ≤ alpha.getD (i-1) 0 := by
  unfold sortOk
  rw [List.all_eq_true]
  constructor
  · intro H i hki his
    have h := H i (List.mem_range.mpr his)
    rw [if_pos hki] at h
    exact of_decide_eq_true h
  · intro H i hi
    by_cases hki : k + 1 ≤ i
    · rw [if_pos hki]
      exact decide_eq_true (H i hki (List.mem_range.mp hi))
    · rw [if_neg hki]

/-- Length of a validated slice. -/
lemma sliceI_length (xs : List ℚ) (a b : Int) (hb : b.toNat ≤ xs.length) :
    (sliceI xs a b).length = b.toNat - a.toNat := by
  simp only [sliceI, List.length_drop, List.length_take]
  omega

/-- Inversion of a successful decode: every guard of `init_from_lapack`
passed, the slices are the ones of the branch taken, and `r` is the packed
result. -/
lemma init_some_elim {m n p : Int} {u v : MatQ} {k l : Int}
    {alpha beta : List ℚ} {r : GSvdResultQ}
    (h : init_from_lapack m n p u v k l alpha beta = some r) :
    (0 ≤ m ∧ 0 ≤ l ∧ 0 ≤ k) ∧
    (0 ≤ m - k - l →
      0 < l ∧ (k+l).toNat ≤ alpha.length ∧ (k+l).toNat ≤ beta.length) ∧
    (¬ 0 ≤ m - k - l →
      k ≤ m ∧ m.toNat ≤ alpha.length ∧ m.toNat ≤ beta.length) ∧
    identOk (if 0 ≤ m - k - l then sliceI alpha k (k+l) else sliceI alpha k m)
            (if 0 ≤ m - k - l then sliceI beta k (k+l) else sliceI beta k m)
      = true ∧
    sortOk alpha k.toNat (min m (k+l)).toNat = true ∧
    r = ⟨some u, some v,
         some (if 0 ≤ m - k - l then sliceI alpha k (k+l) else sliceI alpha k m),
         some (if 0 ≤ m - k - l then sliceI beta k (k+l) else sliceI beta k m),
         none⟩ := by
  unfold init_from_lapack finishDecode at h
  split_ifs at h with h1 h2 h3 h4 h5 h6 <;> try exact Option.noConfusion h
  · have hr := Option.some.inj h
    subst hr
    refine ⟨h1, fun _ => h3, fun hc => absurd h2 hc, ?_, h4.2, ?_⟩
    · rw [if_pos h2, if_pos h2]
      exact h4.1
    · rw [if_pos h2, if_pos h2]
  · have hr := Option.some.inj h
    subst hr
    refine ⟨h1, fun hc => absurd hc h2, fun _ => h5, ?_, h6.2, ?_⟩
    · rw [if_neg h2, if_neg h2]
      exact h6.1
    · rw [if_neg h2, if_neg h2]

/-- Dot product with an empty right operand. -/
lemma dotQ_nil_right (xs : List ℚ) : dotQ xs [] = 0 := by
  cases xs <;> simp [dotQ]

/-- Dot product with an empty left operand. -/
lemma dotQ_nil_left (ys : List ℚ) : dotQ [] ys = 0 := by
  simp [dotQ]

/-- Indexing the Gram matrix `u·uᵗ` is the dot product of the rows. -/
lemma gramData_getD (d : List (List ℚ)) (i j : Nat) :
    ((gramData d).getD i []).getD j 0 = dotQ (d.getD i []) (d.getD j []) := by
  rcases lt_or_ge i d.length with hi | hi
  · have houter : (gramData d).getD i [] = d.map (fun rj => dotQ (d.getD i []) rj) := by
      unfold gramData
      rw [List.getD_eq_getElem _ _ (by simpa [gramData] using hi), List.getElem_map,
        List.getD_eq_getElem _ _ hi]
    rw [houter]
    rcases lt_or_ge j d.length with hj | hj
    · rw [List.getD_eq_getElem _ _ (by simpa using hj), List.getElem_map,
        List.getD_eq_getElem _ _ hj]
    · rw [List.getD_eq_default _ _ (by simpa using hj),
        List.getD_eq_default _ _ hj, dotQ_nil_right]
  · have houter : (gramData d).getD i [] = [] :=
      List.getD_eq_default _ _ (by simpa [gramData] using hi)
    rw [houter, List.getD_eq_default _ _ hi, dotQ_nil_left]
    simp

/-- `check_orthogonality` passes exactly on matrices satisfying the
elementwise orthogonality property the spec states. -/
lemma check_orthogonality_spec (u : MatQ) :
    check_orthogonality u = true ↔ orthogonalWithinTol u := by
  unfold check_orthogonality orthogonalWithinTol
  rw [List.all_eq_true]
  constructor
  · intro H i hi
    have h := H i (List.mem_range.mpr hi)
    rw [Bool.and_eq_true] at h
    refine ⟨?_, ?_⟩
    · have := of_decide_eq_true h.1
      rwa [gramData_getD] at this
    · intro j hj
      have h2 := List.all_eq_true.mp h.2 j (List.mem_range.mpr hj)
      have := of_decide_eq_true h2
      rwa [gramData_getD] at this
  · intro H i hi
    rw [Bool.and_eq_true]
    obtain ⟨hd, ho⟩ := H i (List.mem_range.mp hi)
    refine ⟨decide_eq_true (by rwa [gramData_getD]), ?_⟩
    exact List.all_eq_true.mpr (fun j hj =>
      decide_eq_true (by rw [gramData_getD]; exact ho j (List.mem_range.mp hj)))

end HelperLemmas

section ConcreteEvaluations

/-- The raw output `(m,n,p,k,l) = (2,2,1,0,2)`, `alpha = [1,1]`,
`beta = [0,0]` decodes successfully to `R0`. -/
lemma decode_ex : init_from_lapack 2 2 1 U0 V0 0 2 [1,1] [0,0] = some R0 := by
  have hident : identOk [1,1] [0,0] = true := by
    rw [identOk_spec]
    intro x hx
    simp only [List.zip_cons_cons, List.zip_nil_right, List.mem_cons,
      List.not_mem_nil, or_false] at hx
    rcases hx with rfl | rfl <;> norm_num [epsil]
  have hsort : sortOk [1,1] (Int.toNat 0) ((min (2:Int) (0+2)).toNat) = true := by
    rw [show ((min (2:Int) (0+2)).toNat) = 2 by decide, sortOk_spec]
    intro i h1 h2
    rw [show (Int.toNat 0) = 0 by decide] at h1
    interval_cases i
    simp
  have hs1 : sliceI [1,1] 0 (0+2) = [1,1] := by decide
  have hs2 : sliceI [0,0] 0 (0+2) = [0,0] := by decide
  rw [init_from_lapack, if_pos (by decide), if_pos (by decide), if_pos (by decide),
    finishDecode, hs1, hs2, if_pos ⟨hident, hsort⟩]
  rfl

/-- The raw output with `alpha = [0,1]` (increasing) and `beta = [1,0]`
fails to decode: the sort check panics although every pair satisfies the
cosine/sine identity exactly. -/
lemma decode_unsorted_ex : init_from_lapack 2 2 1 U0 V0 0 2 [0,1] [1,0] = none := by
  rw [init_from_lapack, if_pos (by decide), if_pos (by decide), if_pos (by decide),
    finishDecode, if_neg]
  rintro ⟨-, hsort⟩
  rw [show ((min (2:Int) (0+2)).toNat) = 2 by decide, sortOk_spec] at hsort
  have h := hsort 1 (by norm_num [show (Int.toNat 0) = 0 by decide]) (by norm_num)
  simp only [List.getD_cons_succ, List.getD_cons_zero] at h
  norm_num at h

/-- The would-be decoded slices of the unsorted example all satisfy the
cosine/sine identity. -/
lemma identOk_unsorted_ex :
    identOk (sliceI [0,1] 0 (0+2)) (sliceI [1,0] 0 (0+2)) = true := by
  rw [show sliceI [0,1] 0 (0+2) = [0,1] by decide,
    show sliceI [1,0] 0 (0+2) = [1,0] by decide, identOk_spec]
  intro x hx
  simp only [List.zip_cons_cons, List.zip_nil_right, List.mem_cons,
    List.not_mem_nil, or_false] at hx
  rcases hx with rfl | rfl <;> norm_num [epsil]

/-- The raw output `(m,n,p,k,l) = (1,1,1,0,1)` with the non-orthogonal
factor `Ubad` decodes successfully: the decoder runs no orthogonality
check. -/
lemma decode_nonorth_ex : init_from_lapack 1 1 1 Ubad V0 0 1 [1] [0]
    = some ⟨some Ubad, some V0, some [1], some [0], none⟩ := by
  have hident : identOk [1] [0] = true := by
    rw [identOk_spec]
    intro x hx
    simp only [List.zip_cons_cons, List.zip_nil_right, List.mem_cons,
      List.not_mem_nil, or_false] at hx
    rcases hx with rfl
    norm_num [epsil]
  have hsort : sortOk [1] (Int.toNat 0) ((min (1:Int) (0+1)).toNat) = true := by
    rw [show ((min (1:Int) (0+1)).toNat) = 1 by decide, sortOk_spec]
    intro i h1 h2
    exfalso
    rw [show (Int.toNat 0) = 0 by decide] at h1
    omega
  rw [init_from_lapack, if_pos (by decide), if_pos (by decide), if_pos (by decide),
    finishDecode, show sliceI [1] 0 (0+1) = [1] by decide,
    show sliceI [0] 0 (0+1) = [0] by decide, if_pos ⟨hident, hsort⟩]

/-- `Ubad` fails `check_orthogonality`: its Gram matrix is `[[4]]`. -/
lemma check_orth_Ubad : check_orthogonality Ubad = false := by
  have hg : ((gramData Ubad.data).getD 0 []).getD 0 0 = 4 := by
    rw [show Ubad.data = [[2]] from rfl, gramData_getD]
    norm_num [dotQ]
  simp only [check_orthogonality, show Ubad.nrows = 1 from rfl, List.range_succ,
    List.range_zero, List.nil_append, List.all_cons, List.all_nil, Bool.and_true]
  rw [hg]
  norm_num [epsil]

end ConcreteEvaluations

section Claims

/-- Claim C1: for every raw GSVD output accepted by the decoder, if
`m - k - l ≥ 0` then `s1 = alpha[k..k+l)` and `s2 = beta[k..k+l)`,
otherwise `s1 = alpha[k..m)` and `s2 = beta[k..m)`; in both cases `s1` and
`s2` have equal length `min(m, k+l) - k`. -/
theorem gsvdC1_decode_slices (m n p : Int) (u v : MatQ) (k l : Int)
    (alpha beta : List ℚ) (r : GSvdResultQ)
    (h : init_from_lapack m n p u v k l alpha beta = some r) :
    r.s1 = some (if 0 ≤ m - k - l then sliceI alpha k (k+l) else sliceI alpha k m) ∧
    r.s2 = some (if 0 ≤ m - k - l then sliceI beta k (k+l) else sliceI beta k m) ∧
    (r.s1.getD []).length = (min m (k+l) - k).toNat ∧
    (r.s2.getD []).length = (min m (k+l) - k).toNat := by
  obtain ⟨⟨hm, hl, hk⟩, hb1, hb2, _hident, _hsort, rfl⟩ := init_some_elim h
  refine ⟨rfl, rfl, ?_, ?_⟩
  · simp only [Option.getD_some]
    by_cases hc : 0 ≤ m - k - l
    · rw [if_pos hc, sliceI_length _ _ _ (hb1 hc).2.1,
        min_eq_right (by omega : k + l ≤ m)]
      omega
    · rw [if_neg hc, sliceI_length _ _ _ (hb2 hc).2.1,
        min_eq_left (by omega : m ≤ k + l)]
      omega
  · simp only [Option.getD_some]
    by_cases hc : 0 ≤ m - k - l
    · rw [if_pos hc, sliceI_length _ _ _ (hb1 hc).2.2,
        min_eq_right (by omega : k + l ≤ m)]
      omega
    · rw [if_neg hc, sliceI_length _ _ _ (hb2 hc).2.2,
        min_eq_left (by omega : m ≤ k + l)]
      omega

/-- Witness for C1 at the concrete raw output
`(m,n,p,k,l) = (2,2,1,0,2)`, `alpha = [1,1]`, `beta = [0,0]`. -/
theorem gsvdC1_decode_slices_witness :
    init_from_lapack 2 2 1 U0 V0 0 2 [1,1] [0,0] = some R0 ∧
    (R0.s1 = some (if 0 ≤ (2:Int) - 0 - 2 then sliceI [1,1] 0 (0+2) else sliceI [1,1] 0 2) ∧
     R0.s2 = some (if 0 ≤ (2:Int) - 0 - 2 then sliceI [0,0] 0 (0+2) else sliceI [0,0] 0 2) ∧
     (R0.s1.getD []).length = (min 2 (0+2) - 0 : Int).toNat ∧
     (R0.s2.getD []).length = (min 2 (0+2) - 0 : Int).toNat) :=
  ⟨decode_ex, gsvdC1_decode_slices 2 2 1 U0 V0 0 2 [1,1] [0,0] R0 decode_ex⟩

/-- Claim C2 (code bug): the claimed status-code mapping of
`GSvd::do_gsvd`.  The code maps `ires = 1` to the non-convergence error
and `ires < 0` to the invalid-argument error as claimed, but an
undocumented positive code (e.g. `ires = 2`) falls through to
`Ok(GSvdResult::new())` — a successful return with an empty result —
instead of being treated as fatal; and `ires = 0` panics on a typical
rank partition because the `alpha`/`beta` buffers were created with
`Vec::with_capacity` (length 0), so the decoder slices out of bounds. -/
theorem gsvdC2_status_code_mapping_bug :
    do_gsvd U0 B1 ⟨2, 0, 2, [[1,0],[0,1]], [[1]]⟩ = GsvdOutcome.ok GSvdResult_new ∧
    do_gsvd U0 B1 ⟨0, 0, 2, [[1,0],[0,1]], [[1]]⟩ = GsvdOutcome.fatal ∧
    do_gsvd U0 B1 ⟨1, 0, 2, [[1,0],[0,1]], [[1]]⟩ = GsvdOutcome.err GsvdErr.notConverged ∧
    do_gsvd U0 B1 ⟨-3, 0, 2, [[1,0],[0,1]], [[1]]⟩
      = GsvdOutcome.err (GsvdErr.invalidArgument 3) :=
  ⟨by decide, by decide, by decide, by decide⟩

/-- Claim C3 (code bug): `GSvdApprox::do_approx_gsvd` never returns `Ok`:
on the all-steps-succeeded path (both approximations succeed, equal column
counts, `ires = 0`) it panics in the unimplemented
`GSvdResult::init_from_lapack`, and every other path returns an error —
the final statement of the function is `Err("not yet implemented")`. -/
theorem gsvdC3_success_path_not_implemented :
    (∀ (mat1 mat2 : MatQ) (a1 a2 : Option MatQ) (lap : LapackOracle) (r : GSvdResultQ),
      (do_approx_gsvd mat1 mat2 a1 a2 lap).1 ≠ GsvdOutcome.ok r) ∧
    do_approx_gsvd U0 U0 (some U0) (some U0) ⟨0, 0, 2, [[1,0],[0,1]], [[1,0],[0,1]]⟩
      = (GsvdOutcome.fatal, true) := by
  constructor
  · intro mat1 mat2 a1 a2 lap r
    cases a1 with
    | none => simp [do_approx_gsvd]
    | some q1 =>
      cases a2 with
      | none => simp [do_approx_gsvd]
      | some q2 =>
        unfold do_approx_gsvd
        dsimp only
        split_ifs <;> simp
  · decide

/-- Claim C4 (corrected, kept direction): every decoded pair of a
successful decode satisfies `|1 - (s1[i]² + s2[i]²)| < 1e-5`; hence a
violation of the identity forces the decode to abort.  (The converse —
that an abort implies an identity violation — fails: the decoder also
aborts on unsorted alpha or on a violated entry assertion.) -/
theorem gsvdC4_identity_check_of_decoded (m n p : Int) (u v : MatQ) (k l : Int)
    (alpha beta : List ℚ) (r : GSvdResultQ)
    (h : init_from_lapack m n p u v k l alpha beta = some r) :
    ∀ x ∈ (r.s1.getD []).zip (r.s2.getD []), |1 - (x.1 * x.1 + x.2 * x.2)| < epsil := by
  obtain ⟨_, _, _, hident, _, rfl⟩ := init_some_elim h
  have hspec := (identOk_spec _ _).mp hident
  simpa using hspec

/-- Witness for C4 at the concrete successful decode of `decode_ex`. -/
theorem gsvdC4_identity_check_of_decoded_witness :
    init_from_lapack 2 2 1 U0 V0 0 2 [1,1] [0,0] = some R0 ∧
    ∀ x ∈ (R0.s1.getD []).zip (R0.s2.getD []), |1 - (x.1 * x.1 + x.2 * x.2)| < epsil :=
  ⟨decode_ex, gsvdC4_identity_check_of_decoded 2 2 1 U0 V0 0 2 [1,1] [0,0] R0 decode_ex⟩

/-- Counterexample to C4 as stated ("aborts if and only if"): the raw
output `alpha = [0,1]`, `beta = [1,0]` (with `(m,n,p,k,l) = (2,2,1,0,2)`)
has every decoded pair satisfying the identity exactly, yet decoding
aborts — the sort check panics on the increasing `alpha`. -/
theorem gsvdC4_counterexample :
    identOk (sliceI [0,1] 0 (0+2)) (sliceI [1,0] 0 (0+2)) = true ∧
    init_from_lapack 2 2 1 U0 V0 0 2 [0,1] [1,0] = none :=
  ⟨identOk_unsorted_ex, decode_unsorted_ex⟩

/-- Claim C5: for every successful decode, `alpha` restricted to
`[k, min(m, k+l))` is non-increasing; by contraposition a violation of
this order makes decoding fail. -/
theorem gsvdC5_alpha_nonincreasing (m n p : Int) (u v : MatQ) (k l : Int)
    (alpha beta : List ℚ) (r : GSvdResultQ)
    (h : init_from_lapack m n p u v k l alpha beta = some r) :
    ∀ i : Nat, k.toNat + 1 ≤ i → i < (min m (k+l)).toNat →
      alpha.getD i 0 ≤ alpha.getD (i-1) 0 := by
  obtain ⟨_, _, _, _, hsort, _⟩ := init_some_elim h
  exact (sortOk_spec _ _ _).mp hsort

/-- Witness for C5 at the concrete successful decode of `decode_ex`. -/
theorem gsvdC5_alpha_nonincreasing_witness :
    init_from_lapack 2 2 1 U0 V0 0 2 [1,1] [0,0] = some R0 ∧
    ∀ i : Nat, (0:Int).toNat + 1 ≤ i → i < (min 2 (0+2) : Int).toNat →
      ([1,1] : List ℚ).getD i 0 ≤ ([1,1] : List ℚ).getD (i-1) 0 :=
  ⟨decode_ex, gsvdC5_alpha_nonincreasing 2 2 1 U0 V0 0 2 [1,1] [0,0] R0 decode_ex⟩

end Claims

/-- Claim C6 (code bug): the dense-path constructor `GSvd::new` does abort
at construction on differing column counts, but the randomized-path
constructor `GSvdApprox::new` performs no check at all (it accepts the
mismatched pair), and `do_approx_gsvd` consumes both range-approximation
results before the column-count assertion fires — the failure is a panic
after the approximation step, not a `DimensionMismatch` error before it. -/
theorem gsvdC6_dimension_check_bug :
    U0.ncols ≠ B3.ncols ∧
    GSvdApprox_new U0 B3 = some (U0, B3) ∧
    GSvd_new U0 B3 = none ∧
    do_approx_gsvd U0 B3 (some U0) (some B3) ⟨0, 0, 2, [[1,0],[0,1]], [[1]]⟩
      = (GsvdOutcome.fatal, false) :=
  ⟨by decide, rfl, by decide, by decide⟩

/-- Claim C7: if the range approximator fails for either input matrix,
`do_approx_gsvd` fails with the error naming that matrix (1 or 2), and
the dense GSVD primitive is not invoked (the invocation flag is `false`),
regardless of the input matrices and of the primitive oracle. -/
theorem gsvdC7_range_approx_failure_propagation :
    ∀ (mat1 mat2 : MatQ) (a2 : Option MatQ) (lap : LapackOracle),
      do_approx_gsvd mat1 mat2 none a2 lap
        = (GsvdOutcome.err (GsvdErr.rangeApproxFailed 1), false) ∧
      ∀ q1 : MatQ, do_approx_gsvd mat1 mat2 (some q1) none lap
        = (GsvdOutcome.err (GsvdErr.rangeApproxFailed 2), false) :=
  fun _ _ _ _ => ⟨rfl, fun _ => rfl⟩

/-- Claim C8 (code bug): the `gsvd.rs` invocation passes `lda = n`,
`ldb = n`, `ldu = m`, `ldv = p`, `ldq = n` (recall `b_nbcol = n` is
enforced by the constructor and by `assert_eq!` before the call), which
satisfies every claimed bound; but the `randgsvd.rs` invocation passes
`ldb = p`, `ldv = m`, `ldq = 0`, violating `ldb ≥ n` and `ldq ≥ n`
already for reduced matrices A (2×3) and B (2×3). -/
theorem gsvdC8_leading_dimensions_bug :
    (∀ m n p : Nat,
      (n:Int) ≤ (gsvd_ld_params m n p n).lda ∧
      (n:Int) ≤ (gsvd_ld_params m n p n).ldb ∧
      (m:Int) ≤ (gsvd_ld_params m n p n).ldu ∧
      (p:Int) ≤ (gsvd_ld_params m n p n).ldv ∧
      (n:Int) ≤ (gsvd_ld_params m n p n).ldq) ∧
    ¬ ((3:Int) ≤ (randgsvd_ld_params 2 3 2 3).ldb) ∧
    ¬ ((3:Int) ≤ (randgsvd_ld_params 2 3 2 3).ldq) := by
  refine ⟨fun m n p => ?_, by decide, by decide⟩
  simp [gsvd_ld_params]

/-- Claim C9 (amended): the orthogonality validation exists only as the
test utility `check_uv_orthogonal`, which passes exactly when every
present factor satisfies the elementwise tolerance-`1e-5` orthogonality
property of its Gram matrix `U·Uᵗ` (diagonal within `1e-5` of 1,
below-diagonal within `1e-5` of 0); the decode path itself performs no
such validation, as the accompanying counterexample shows. -/
theorem gsvdC9_orthogonality_check_characterization :
    ∀ r : GSvdResultQ, check_uv_orthogonal r = true ↔
      (∀ u ∈ r.v1, orthogonalWithinTol u) ∧ (∀ v ∈ r.v2, orthogonalWithinTol v) := by
  intro r
  obtain ⟨v1, v2, s1, s2, cx⟩ := r
  cases v1 <;> cases v2 <;>
    simp [check_uv_orthogonal, check_orthogonality_spec]

/-- Counterexample to C9 as stated: the raw output
`(m,n,p,k,l) = (1,1,1,0,1)` with the non-orthogonal factor `Ubad`
(whose Gram matrix is `[[4]]`, so `check_orthogonality` rejects it)
decodes successfully — the decoder validates no orthogonality. -/
theorem gsvdC9_counterexample :
    init_from_lapack 1 1 1 Ubad V0 0 1 [1] [0]
      = some ⟨some Ubad, some V0, some [1], some [0], none⟩ ∧
    check_orthogonality Ubad = false :=
  ⟨decode_nonorth_ex, check_orth_Ubad⟩

/-- Claim C10: in the `m - k - l ≥ 0` decoding branch the decoder asserts
`l > 0`: every raw output with `m - k - l ≥ 0` and `l = 0` aborts decoding
(returns no result) instead of producing empty `s1`, `s2`. -/
theorem gsvdC10_l_positive_assert (m n p : Int) (u v : MatQ) (k l : Int)
    (alpha beta : List ℚ) (h1 : 0 ≤ m - k - l) (h2 : l = 0) :
    init_from_lapack m n p u v k l alpha beta = none := by
  subst h2
  unfold init_from_lapack finishDecode
  split_ifs with g1 g2 g3 <;> first | rfl | (exfalso; omega)

/-- Witness for C10 at the concrete raw output
`(m,n,p,k,l) = (1,1,1,1,0)`. -/
theorem gsvdC10_l_positive_assert_witness :
    (0 ≤ (1:Int) - 1 - 0 ∧ (0:Int) = 0) ∧
    init_from_lapack 1 1 1 U0 V0 1 0 [] [] = none :=
  ⟨⟨by decide, rfl⟩, gsvdC10_l_positive_assert 1 1 1 U0 V0 1 0 [] [] (by decide) rfl⟩
